/-
Verification of the GoldBook trading-journal analytics engine (src/app.py).

Modelling conventions:
* Python floats are modelled as exact rationals (ℚ).  Python's `round(x, n)`
  performs round-half-to-even on the decimal value of the float; on inputs
  whose values are exactly representable in binary (all concrete inputs used
  below are dyadic rationals or integers) this coincides with exact
  round-half-to-even over ℚ, which is what `round2` / `round1` implement.
* Python dicts that are built incrementally are modelled as association lists
  `List (String × β)` in insertion order: `setKey` overwrites an existing key
  in place and appends a fresh key at the end, exactly like CPython dicts.
* `datetime.strptime(s, "%Y-%m-%d %H:%M:%S")` is modelled by `strptime`,
  reproducing CPython's `_strptime` regexes for %Y %m %d %H %M %S (4-digit
  year, 1-2 digit numeric fields with the same value ranges, mandatory
  literal separators, whole-string consumption) followed by the range checks
  of the `datetime` constructor (year ≥ 1, day ≤ days-in-month, second ≤ 59).
* `datetime.weekday()` (Monday = 0) is computed from the proleptic Gregorian
  civil-day number.
* A SQL TEXT column that may be NULL or empty is an `Option String`; Python
  truthiness (`if t["close_time"]:`) is false exactly on `none` and `some ""`.
* `compute_stats` returns `{}` on an empty input; this absent summary is the
  `none` of an `Option StatsSummary`.
-/
import Mathlib

set_option synthInstance.maxSize 2048

namespace GoldBook

/-- Round-half-to-even to an integer, the rounding CPython's `round` applies
to the decimal expansion of its argument. -/
def rhe {α : Type} [LinearOrderedField α] [FloorRing α] (x : α) : ℤ :=
  let f : ℤ := ⌊x⌋
  let r : α := x - f
  if r < 1/2 then f
  else if 1/2 < r then f + 1
  else if f % 2 = 0 then f else f + 1

/-- Python `round(x, 2)` over exact values. -/
def round2 {α : Type} [LinearOrderedField α] [FloorRing α] (x : α) : α :=
  ((rhe (x * 100) : ℤ) : α) / 100

/-- Python `round(x, 1)` over exact values. -/
def round1 {α : Type} [LinearOrderedField α] [FloorRing α] (x : α) : α :=
  ((rhe (x * 10) : ℤ) : α) / 10

/-- One row of the `trades` table (src/app.py, CREATE TABLE trades).
Nullable TEXT columns are `Option String`; REAL columns are ℚ. -/
structure TradeRecord where
  ticket : ℤ := 0
  pair : Option String := none
  trade_type : Option String := none
  open_time : Option String := none
  close_time : Option String := none
  open_price : ℚ := 0
  close_price : ℚ := 0
  sl : ℚ := 0
  tp : ℚ := 0
  lots : ℚ := 0
  profit : ℚ := 0
  commission : ℚ := 0
  swap : ℚ := 0
  duration_minutes : ℤ := 0
  deriving DecidableEq

/-- One row of the `equity_snapshots` table (src/app.py). -/
structure EquitySnapshot where
  balance : ℚ := 0
  equity : ℚ := 0
  snapshot_time : String := ""
  deriving DecidableEq

/-- The dict returned by `compute_stats` for a non-empty trade list
(src/app.py lines 119-135). -/
structure StatsSummary where
  total_trades : ℕ
  win_count : ℕ
  loss_count : ℕ
  win_rate : ℚ
  avg_win : ℚ
  avg_loss : ℚ
  profit_factor : ℚ
  expectancy : ℚ
  sharpe_ratio : ℝ
  max_consec_wins : ℕ
  max_consec_losses : ℕ
  total_profit : ℚ
  max_drawdown : ℚ
  gross_profit : ℚ
  gross_loss : ℚ

/-- Square of `statistics.stdev(ps)`: the unbiased sample variance with the n−1
denominator.  `compute_stats` only evaluates it when `len(profits) > 1`. -/
def sampleVar (ps : List ℚ) : ℚ :=
  let μ : ℚ := ps.sum / ps.length
  (ps.map (fun p => (p - μ) ^ 2)).sum / ((ps.length - 1 : ℕ) : ℚ)

/-- One iteration of the consecutive win/loss scan (src/app.py lines 102-109).
State is (cur_w, cur_l, max_consec_wins, max_consec_losses). -/
def streakStep (s : ℕ × ℕ × ℕ × ℕ) (p : ℚ) : ℕ × ℕ × ℕ × ℕ :=
  if 0 < p then (s.1 + 1, 0, max s.2.2.1 (s.1 + 1), s.2.2.2)
  else (0, s.2.1 + 1, s.2.2.1, max s.2.2.2 (s.2.1 + 1))

/-- One iteration of the drawdown scan (src/app.py lines 112-117).
State is (peak, max_dd, running). -/
def ddStep (s : ℚ × ℚ × ℚ) (p : ℚ) : ℚ × ℚ × ℚ :=
  let running := s.2.2 + p
  let peak := if s.1 < running then running else s.1
  let dd := peak - running
  let max_dd := if s.2.1 < dd then dd else s.2.1
  (peak, max_dd, running)

/-- The body of `compute_stats` after the empty-input early return
(src/app.py lines 79-135).  Real.sqrt models `statistics.stdev`'s square
root, which is why this definition lives in ℝ for the Sharpe field. -/
noncomputable def statsOf (trades : List TradeRecord) : StatsSummary :=
  let profits := trades.map (fun t => t.profit)
  let wins := profits.filter (fun p => decide (0 < p))
  let losses := profits.filter (fun p => decide (p < 0))
  let total := profits.length
  let win_count := wins.length
  let loss_count := losses.length
  let win_rate : ℚ := if 0 < total then (win_count : ℚ) / (total : ℚ) * 100 else 0
  let avg_win : ℚ := if wins = [] then 0 else wins.sum / (wins.length : ℚ)
  let avg_loss : ℚ := if losses = [] then 0 else losses.sum / (losses.length : ℚ)
  let gross_profit : ℚ := wins.sum
  let gross_loss : ℚ := |losses.sum|
  let profit_factor : ℚ := if 0 < gross_loss then gross_profit / gross_loss else 0
  let expectancy : ℚ := win_rate / 100 * avg_win + (1 - win_rate / 100) * avg_loss
  let sharpe : ℝ :=
    if 1 < profits.length then
      let avg_ret : ℚ := profits.sum / (profits.length : ℚ)
      let std_ret : ℝ := Real.sqrt ((sampleVar profits : ℚ) : ℝ)
      if 0 < std_ret then ((avg_ret : ℚ) : ℝ) / std_ret else 0
    else 0
  let st := profits.foldl streakStep (0, 0, 0, 0)
  let dd := profits.foldl ddStep (0, 0, 0)
  { total_trades := total
    win_count := win_count
    loss_count := loss_count
    win_rate := round1 win_rate
    avg_win := round2 avg_win
    avg_loss := round2 avg_loss
    profit_factor := round2 profit_factor
    expectancy := round2 expectancy
    sharpe_ratio := round2 sharpe
    max_consec_wins := st.2.2.1
    max_consec_losses := st.2.2.2
    total_profit := round2 profits.sum
    max_drawdown := round2 dd.2.1
    gross_profit := round2 gross_profit
    gross_loss := round2 gross_loss }

/-- The function `compute_stats` (src/app.py lines 76-135): `{}` — modelled as `none` —
for an empty trade list, the full summary otherwise. -/
noncomputable def compute_stats (trades : List TradeRecord) : Option StatsSummary :=
  match trades with
  | [] => none
  | _ => some (statsOf trades)

/-- The (year, month, day, hour, minute, second) a successful
`datetime.strptime` call produces. -/
structure PDateTime where
  year : ℕ
  month : ℕ
  day : ℕ
  hour : ℕ
  minute : ℕ
  second : ℕ
  deriving DecidableEq

/-- Numeric value of a decimal digit character. -/
def charVal (c : Char) : ℕ := c.toNat - 48

/-- Parse exactly four decimal digits (CPython `%Y`). -/
def p4d (cs : List Char) : Option (ℕ × List Char) :=
  match cs with
  | a :: b :: c :: d :: rest =>
      if a.isDigit ∧ b.isDigit ∧ c.isDigit ∧ d.isDigit then
        some (charVal a * 1000 + charVal b * 100 + charVal c * 10 + charVal d, rest)
      else none
  | _ => none

/-- Parse one or two decimal digits with CPython's `_strptime` semantics for
%m/%d/%H/%M/%S: two digits are consumed greedily and must give a value in
[twoLo, twoHi]; a single digit must give a value in [oneLo, oneHi].  (When
two digits are present but out of range the regex alternation would leave a
digit facing a literal separator, so the overall match fails — exactly this
function's behaviour.) -/
def p2or1 (twoLo twoHi oneLo oneHi : ℕ) (cs : List Char) : Option (ℕ × List Char) :=
  match cs with
  | a :: b :: rest =>
      if a.isDigit then
        if b.isDigit then
          let v := charVal a * 10 + charVal b
          if twoLo ≤ v ∧ v ≤ twoHi then some (v, rest) else none
        else
          let v := charVal a
          if oneLo ≤ v ∧ v ≤ oneHi then some (v, b :: rest) else none
      else none
  | [a] =>
      if a.isDigit then
        let v := charVal a
        if oneLo ≤ v ∧ v ≤ oneHi then some (v, []) else none
      else none
  | [] => none

/-- Parse a literal separator character. -/
def pLit (c : Char) : List Char → Option (List Char)
  | [] => none
  | a :: rest => if a = c then some rest else none

/-- Gregorian leap-year rule, as used by `datetime`. -/
def leapYear (y : ℕ) : Bool := (y % 4 == 0 && y % 100 != 0) || y % 400 == 0

/-- Number of days in a month, as validated by the `datetime` constructor. -/
def daysInMonth (y m : ℕ) : ℕ :=
  if m = 2 then (if leapYear y then 29 else 28)
  else if m = 4 ∨ m = 6 ∨ m = 9 ∨ m = 11 then 30 else 31

/-- Model of `datetime.strptime(s, "%Y-%m-%d %H:%M:%S")`: CPython's `_strptime`
regular expressions followed by the `datetime` constructor's range checks;
`none` models the `ValueError` that the engine's bare `except` swallows.
The whole string must be consumed ("unconverted data remains" otherwise). -/
def strptime (s : String) : Option PDateTime :=
  match p4d s.data with
  | none => none
  | some (y, r1) =>
    match pLit '-' r1 with
    | none => none
    | some r2 =>
      match p2or1 1 12 1 9 r2 with
      | none => none
      | some (mo, r3) =>
        match pLit '-' r3 with
        | none => none
        | some r4 =>
          match p2or1 1 31 1 9 r4 with
          | none => none
          | some (dy, r5) =>
            match pLit ' ' r5 with
            | none => none
            | some r6 =>
              match p2or1 0 23 0 9 r6 with
              | none => none
              | some (h, r7) =>
                match pLit ':' r7 with
                | none => none
                | some r8 =>
                  match p2or1 0 59 0 9 r8 with
                  | none => none
                  | some (mi, r9) =>
                    match pLit ':' r9 with
                    | none => none
                    | some r10 =>
                      match p2or1 0 59 0 9 r10 with
                      | none => none
                      | some (sec, r11) =>
                        if r11 = [] ∧ 1 ≤ y ∧ dy ≤ daysInMonth y mo then
                          some ⟨y, mo, dy, h, mi, sec⟩
                        else none

/-- Days since 1970-01-01 of a proleptic Gregorian civil date (Hinnant's
days-from-civil algorithm; all divisions act on non-negative operands, so
truncating ℤ division agrees with the original). -/
def daysFromCivil (y m d : ℤ) : ℤ :=
  let y2 := if m ≤ 2 then y - 1 else y
  let era := (if 0 ≤ y2 then y2 else y2 - 399) / 400
  let yoe := y2 - era * 400
  let doy := (153 * (if 2 < m then m - 3 else m + 9) + 2) / 5 + d - 1
  let doe := yoe * 365 + yoe / 4 - yoe / 100 + doy
  era * 146097 + doe - 719468

/-- Python's `datetime.weekday()`: Monday = 0 … Sunday = 6.  1970-01-01 (day number
0) was a Thursday, hence the +3 offset. -/
def pyWeekday (dt : PDateTime) : ℕ :=
  ((daysFromCivil dt.year dt.month dt.day + 3) % 7).toNat

/-- Python truthiness of a nullable string column. -/
def truthy : Option String → Bool
  | none => false
  | some s => decide (s ≠ "")

/-- First value stored under a key in an insertion-ordered dict. -/
def lookupKey {β : Type} : List (String × β) → String → Option β
  | [], _ => none
  | (k, v) :: rest, key => if k = key then some v else lookupKey rest key

/-- Assignment `d[k] = v` on an insertion-ordered dict: overwrite in place if the key
exists, append otherwise — CPython dict semantics. -/
def setKey {β : Type} : List (String × β) → String → β → List (String × β)
  | [], key, v => [(key, v)]
  | (k, w) :: rest, key, v =>
      if k = key then (key, v) :: rest else (k, w) :: setKey rest key v

/-- One iteration of the P&L-calendar loop (src/app.py lines 231-234):
key = first 10 characters of `close_time`, falsy `close_time` skipped,
running sum rounded after every contribution. -/
def calStep (m : List (String × ℚ)) (t : TradeRecord) : List (String × ℚ) :=
  match t.close_time with
  | none => m
  | some s =>
      if s = "" then m
      else
        let day := s.take 10
        setKey m day (round2 ((lookupKey m day).getD 0 + t.profit))

/-- The `cal` dict of `api_stats` (src/app.py lines 230-234). -/
def cal (trades : List TradeRecord) : List (String × ℚ) :=
  trades.foldl calStep []

/-- One iteration of the monthly-P&L loop (src/app.py lines 267-270):
key = first 7 characters of `close_time`. -/
def monthlyStep (m : List (String × ℚ)) (t : TradeRecord) : List (String × ℚ) :=
  match t.close_time with
  | none => m
  | some s =>
      if s = "" then m
      else
        let mon := s.take 7
        setKey m mon (round2 ((lookupKey m mon).getD 0 + t.profit))

/-- The `monthly` dict of `api_stats` (src/app.py lines 266-270). -/
def monthly (trades : List TradeRecord) : List (String × ℚ) :=
  trades.foldl monthlyStep []

/-- The dict comprehension over `str(h)` for h in `range(24)` (src/app.py line 237). -/
def hoursInit : List (String × ℚ) := (List.range 24).map (fun h => (toString h, 0))

/-- One iteration of the hours-heatmap loop (src/app.py lines 238-243):
parse `open_time[:19]`, take the hour, update the pre-populated bucket;
any parse failure is swallowed and the trade skipped.  (A failed key lookup
would raise KeyError inside the same `try`, hence the lookup guard, though
`str(hour)` is always a pre-populated key.) -/
def hoursStep (m : List (String × ℚ)) (t : TradeRecord) : List (String × ℚ) :=
  match t.open_time with
  | none => m
  | some s =>
      if s = "" then m
      else
        match strptime (s.take 19) with
        | none => m
        | some dt =>
            let h := toString dt.hour
            match lookupKey m h with
            | none => m
            | some old => setKey m h (round2 (old + t.profit))

/-- The `hours` dict of `api_stats` (src/app.py lines 237-243). -/
def hours (trades : List TradeRecord) : List (String × ℚ) :=
  trades.foldl hoursStep hoursInit

/-- The list `day_names` (src/app.py line 247). -/
def day_names : List String := ["Mon", "Tue", "Wed", "Thu", "Fri", "Sat", "Sun"]

/-- The pre-populated day-of-week dict (src/app.py line 246). -/
def daysInit : List (String × ℚ) := day_names.map (fun d => (d, 0))

/-- One iteration of the day-of-week loop (src/app.py lines 248-253). -/
def daysStep (m : List (String × ℚ)) (t : TradeRecord) : List (String × ℚ) :=
  match t.open_time with
  | none => m
  | some s =>
      if s = "" then m
      else
        match strptime (s.take 19) with
        | none => m
        | some dt =>
            let name := day_names.getD (pyWeekday dt) ""
            match lookupKey m name with
            | none => m
            | some old => setKey m name (round2 (old + t.profit))

/-- The `days` dict of `api_stats` (src/app.py lines 246-253). -/
def days (trades : List TradeRecord) : List (String × ℚ) :=
  trades.foldl daysStep daysInit

/-- A per-instrument aggregate (src/app.py line 260). -/
structure PairStat where
  wins : ℕ := 0
  losses : ℕ := 0
  profit : ℚ := 0

/-- One iteration of the by-pair loop (src/app.py lines 257-263): key is the
pair or "Unknown" when absent/empty, `profit > 0` bumps wins else losses,
profit accumulated with per-update rounding. -/
def pairsStep (m : List (String × PairStat)) (t : TradeRecord) : List (String × PairStat) :=
  let key := match t.pair with
    | none => "Unknown"
    | some s => if s = "" then "Unknown" else s
  let cur := (lookupKey m key).getD {}
  let cur2 := if 0 < t.profit then { cur with wins := cur.wins + 1 }
              else { cur with losses := cur.losses + 1 }
  setKey m key { cur2 with profit := round2 (cur.profit + t.profit) }

/-- The `pairs` dict of `api_stats` (src/app.py lines 256-263). -/
def pairs (trades : List TradeRecord) : List (String × PairStat) :=
  trades.foldl pairsStep []

/-- One point of the equity curve (src/app.py lines 226-227). -/
structure EquityPoint where
  time : String
  balance : ℚ
  equity : ℚ

/-- The equity-curve projection (src/app.py lines 226-227): one point per
snapshot, values passed through, order preserved. -/
def equity_curve (snaps : List EquitySnapshot) : List EquityPoint :=
  snaps.map (fun s => ⟨s.snapshot_time, s.balance, s.equity⟩)

/-- The JSON object assembled by `api_stats` (src/app.py lines 272-281). -/
structure AnalyticsReport where
  stats : Option StatsSummary
  equity_curve : List EquityPoint
  calendar : List (String × ℚ)
  hours : List (String × ℚ)
  days : List (String × ℚ)
  pairs : List (String × PairStat)
  monthly : List (String × ℚ)
  trade_count : ℕ

/-- The analytics portion of `api_stats` (src/app.py lines 222-281), as a
function of the fetched trades and snapshots. -/
noncomputable def api_stats (trades : List TradeRecord) (snaps : List EquitySnapshot) :
    AnalyticsReport :=
  { stats := compute_stats trades
    equity_curve := equity_curve snaps
    calendar := cal trades
    hours := hours trades
    days := days trades
    pairs := pairs trades
    monthly := monthly trades
    trade_count := trades.length }

/-- Running cumulative profit totals: entry i is the sum of the first i+1
profits.  Spec-side vocabulary for the max_drawdown description. -/
def prefixSums (ps : List ℚ) : List ℚ :=
  (List.range ps.length).map (fun i => (ps.take (i + 1)).sum)

/-- The spec's description of max_drawdown, stated independently of the
implementation loop: walk the sequence accumulating a running cumulative
total, track a running peak (maximum cumulative value seen so far, starting
at 0), at each step compute peak − running, and take the maximum of those
differences over the whole sequence. -/
def specMaxDrawdown (ps : List ℚ) : ℚ :=
  (((((List.range (prefixSums ps).length).map
        (fun i => ((prefixSums ps).take (i + 1)).foldl max 0)).zip
      (prefixSums ps)).map fun pr => pr.1 - pr.2).foldl max 0)

/-- The running-peak value after a whole list, with the peak starting at 0. -/
def peakOf (ps : List ℚ) : ℚ := (prefixSums ps).foldl max 0

/-- The five-trade scenario of spec §8: profits 100, −50, 50, −20, −10 in
this order. -/
def c2trades : List TradeRecord :=
  [{ profit := 100 }, { profit := -50 }, { profit := 50 }, { profit := -20 }, { profit := -10 }]

/-- A break-even trade. -/
def zeroTrade : TradeRecord := { profit := 0 }

/-- A plainly winning trade. -/
def winTrade : TradeRecord := { profit := 100 }

/-- Two identical profitable trades: zero gross loss and zero variance. -/
def flatPair : List TradeRecord := [{ profit := 5 }, { profit := 5 }]

/-- The spec §8 malformed-timestamp scenario: unparsable `open_time`,
valid `close_time`. -/
def garbageTrade : TradeRecord :=
  { open_time := some "garbage", close_time := some "2024-01-05 10:00:00", profit := 7 }

/-- A trade with no `close_time` at all. -/
def noCloseTrade : TradeRecord := { close_time := none, profit := 3 }

/-- First trade of the spec §8 calendar scenario. -/
def c8a : TradeRecord := { close_time := some "2024-01-05T10:00:00", profit := 30 }

/-- Second trade of the spec §8 calendar scenario. -/
def c8b : TradeRecord := { close_time := some "2024-01-05T15:00:00", profit := -10 }

/-- A sample equity snapshot. -/
def snapA : EquitySnapshot :=
  { balance := 1000, equity := 990, snapshot_time := "2024-01-05 10:00:00" }

lemma compute_stats_of_ne_nil {l : List TradeRecord} (h : l ≠ []) :
    compute_stats l = some (statsOf l) := by
  cases l with
  | nil => exact absurd rfl h
  | cons a l => rfl

lemma statsOf_total (l : List TradeRecord) :
    (statsOf l).total_trades = (l.map fun t => t.profit).length := rfl

lemma statsOf_win_count (l : List TradeRecord) :
    (statsOf l).win_count
      = ((l.map fun t => t.profit).filter fun p => decide (0 < p)).length := rfl

lemma statsOf_loss_count (l : List TradeRecord) :
    (statsOf l).loss_count
      = ((l.map fun t => t.profit).filter fun p => decide (p < 0)).length := rfl

lemma statsOf_gross_loss (l : List TradeRecord) :
    (statsOf l).gross_loss
      = round2 |((l.map fun t => t.profit).filter fun p => decide (p < 0)).sum| := rfl

lemma statsOf_avg_loss (l : List TradeRecord) :
    (statsOf l).avg_loss
      = round2 (if ((l.map fun t => t.profit).filter fun p => decide (p < 0)) = [] then 0
          else ((l.map fun t => t.profit).filter fun p => decide (p < 0)).sum
            / (((l.map fun t => t.profit).filter fun p => decide (p < 0)).length : ℚ)) := rfl

lemma statsOf_profit_factor (l : List TradeRecord) :
    (statsOf l).profit_factor
      = round2 (if 0 < |((l.map fun t => t.profit).filter fun p => decide (p < 0)).sum| then
          ((l.map fun t => t.profit).filter fun p => decide (0 < p)).sum
            / |((l.map fun t => t.profit).filter fun p => decide (p < 0)).sum|
        else 0) := rfl

lemma statsOf_max_drawdown (l : List TradeRecord) :
    (statsOf l).max_drawdown
      = round2 (((l.map fun t => t.profit).foldl ddStep (0, 0, 0)).2.1) := rfl

lemma count_sign_partition (l : List ℚ) :
    (l.filter fun p => decide (0 < p)).length + (l.filter fun p => decide (p < 0)).length
      + (l.filter fun p => decide (p = 0)).length = l.length := by
  induction l with
  | nil => rfl
  | cons a l ih =>
    by_cases hpos : 0 < a
    · have hneg : ¬ a < 0 := asymm hpos
      simp only [List.filter_cons]
      simp [hpos, hneg, hpos.ne']
      omega
    · by_cases hneg : a < 0
      · simp only [List.filter_cons]
        simp [hpos, hneg, hneg.ne]
        omega
      · have hz : a = 0 := le_antisymm (not_lt.mp hpos) (not_lt.mp hneg)
        simp only [List.filter_cons]
        simp [hpos, hneg, hz]
        omega

/-- C1 counterexample: on the single break-even trade the code counts it in
neither `win_count` (profit > 0 fails) nor `loss_count` (the code filters
profit < 0, not profit ≤ 0), so `win_count + loss_count = total_trades`
fails: the summary is (0, 0, 1). -/
theorem C1_counterexample :
    ((compute_stats [zeroTrade]).map fun s =>
        decide (s.win_count + s.loss_count = s.total_trades)) = some false := by
  with_unfolding_all decide

/-- C1 (amended): `compute_stats` classifies a trade as a win iff
profit > 0 but as a loss iff profit < 0 — zero-profit trades count in
neither — so `win_count + loss_count` plus the number of zero-profit trades
equals `total_trades` (equality with `total_trades` alone only when no trade
has exactly zero profit). -/
theorem C1_theorem (trades : List TradeRecord) (h : trades ≠ []) :
    ((compute_stats trades).map fun s => (s.win_count, s.loss_count, s.total_trades))
      = some (((trades.map fun t => t.profit).filter fun p => decide (0 < p)).length,
              ((trades.map fun t => t.profit).filter fun p => decide (p < 0)).length,
              trades.length) ∧
    ((trades.map fun t => t.profit).filter fun p => decide (0 < p)).length
      + ((trades.map fun t => t.profit).filter fun p => decide (p < 0)).length
      + ((trades.map fun t => t.profit).filter fun p => decide (p = 0)).length
      = trades.length := by
  constructor
  · rw [compute_stats_of_ne_nil h]
    simp only [Option.map_some']
    rw [statsOf_win_count, statsOf_loss_count, statsOf_total, List.length_map]
  · simpa [List.length_map] using count_sign_partition (trades.map fun t => t.profit)

/-- C1 witness: the amended count identities instantiated on the
single break-even trade. -/
theorem C1_witness :
    ((compute_stats [zeroTrade]).map fun s => (s.win_count, s.loss_count, s.total_trades))
      = some (0, 0, 1) := by
  have h := (C1_theorem [zeroTrade] (by decide)).1
  rw [h]
  with_unfolding_all decide

/-- C2 counterexample: on the spec's five-trade scenario the returned
`profit_factor` is not 1.875 — the code rounds `150 / 80` to two decimals
(`round(1.875, 2) = 1.88` under round-half-to-even) before returning it. -/
theorem C2_counterexample :
    ((compute_stats c2trades).map fun s => decide (s.profit_factor = 1.875)) = some false := by
  with_unfolding_all decide

/-- C2 (amended): for the trade sequence with profits
[100, −50, 50, −20, −10] in that order, `compute_stats` returns
max_consec_wins = 1, max_consec_losses = 2, total_profit = 70,
win_count = 2, loss_count = 3, gross_profit = 150, gross_loss = 80, and
profit_factor = 1.88 (the exact ratio 1.875 rounded to two decimals by the
returned value's `round(…, 2)`). -/
theorem C2_theorem :
    ((compute_stats c2trades).map fun s =>
        (s.max_consec_wins, s.max_consec_losses, s.total_profit, s.win_count,
         s.loss_count, s.gross_profit, s.gross_loss, s.profit_factor))
      = some (1, 2, 70, 2, 3, 150, 80, 1.88) := by
  with_unfolding_all decide

lemma lookup_setKey_self {β : Type} (m : List (String × β)) (k : String) (v : β) :
    lookupKey (setKey m k v) k = some v := by
  induction m with
  | nil => simp [setKey, lookupKey]
  | cons a m ih =>
    obtain ⟨k2, w⟩ := a
    by_cases hk : k2 = k
    · simp [setKey, hk, lookupKey]
    · simp [setKey, hk, lookupKey, ih]

lemma calStep_of_close (m : List (String × ℚ)) (t : TradeRecord) (ct : String)
    (hct : t.close_time = some ct) (hne : ct ≠ "") :
    calStep m t = setKey m (ct.take 10)
      (round2 ((lookupKey m (ct.take 10)).getD 0 + t.profit)) := by
  simp [calStep, hct, hne]

lemma monthlyStep_of_close (m : List (String × ℚ)) (t : TradeRecord) (ct : String)
    (hct : t.close_time = some ct) (hne : ct ≠ "") :
    monthlyStep m t = setKey m (ct.take 7)
      (round2 ((lookupKey m (ct.take 7)).getD 0 + t.profit)) := by
  simp [monthlyStep, hct, hne]

lemma hoursStep_of_bad_open (m : List (String × ℚ)) (t : TradeRecord) (ot : String)
    (hot : t.open_time = some ot) (hbad : strptime (ot.take 19) = none) :
    hoursStep m t = m := by
  by_cases he : ot = ""
  · simp [hoursStep, hot, he]
  · simp [hoursStep, hot, he, hbad]

lemma daysStep_of_bad_open (m : List (String × ℚ)) (t : TradeRecord) (ot : String)
    (hot : t.open_time = some ot) (hbad : strptime (ot.take 19) = none) :
    daysStep m t = m := by
  by_cases he : ot = ""
  · simp [daysStep, hot, he]
  · simp [daysStep, hot, he, hbad]

lemma calStep_skip (m : List (String × ℚ)) (t : TradeRecord)
    (ht : truthy t.close_time = false) : calStep m t = m := by
  cases hc : t.close_time with
  | none => simp [calStep, hc]
  | some s =>
    have hs : s = "" := by simpa [truthy, hc] using ht
    simp [calStep, hc, hs]

/-- C3: a zero-profit trade is counted in neither `win_count` nor
`loss_count` and its profit is excluded from `avg_loss` and `gross_loss`
(removing it from the sequence leaves those four outputs unchanged), yet
the streak scan's else-branch treats it as a loss: it zeroes the current
win streak and extends the current loss streak feeding
`max_consec_losses`. -/
theorem C3_theorem (l1 l2 : List TradeRecord) (t : TradeRecord)
    (hp : t.profit = 0) (hne : l1 ++ l2 ≠ []) :
    ((compute_stats (l1 ++ t :: l2)).map fun s =>
        (s.win_count, s.loss_count, s.gross_loss, s.avg_loss))
      = ((compute_stats (l1 ++ l2)).map fun s =>
        (s.win_count, s.loss_count, s.gross_loss, s.avg_loss)) ∧
    ∀ st : ℕ × ℕ × ℕ × ℕ, streakStep st t.profit
      = (0, st.2.1 + 1, st.2.2.1, max st.2.2.2 (st.2.1 + 1)) := by
  constructor
  · have hne2 : l1 ++ t :: l2 ≠ [] := by simp
    rw [compute_stats_of_ne_nil hne2, compute_stats_of_ne_nil hne]
    simp only [Option.map_some', Option.some.injEq]
    have hw : ((l1 ++ t :: l2).map fun tr => tr.profit).filter (fun p => decide (0 < p))
        = ((l1 ++ l2).map fun tr => tr.profit).filter (fun p => decide (0 < p)) := by
      simp [List.map_append, List.filter_append, List.map_cons, List.filter_cons, hp]
    have hl : ((l1 ++ t :: l2).map fun tr => tr.profit).filter (fun p => decide (p < 0))
        = ((l1 ++ l2).map fun tr => tr.profit).filter (fun p => decide (p < 0)) := by
      simp [List.map_append, List.filter_append, List.map_cons, List.filter_cons, hp]
    simp only [statsOf_win_count, statsOf_loss_count, statsOf_gross_loss, statsOf_avg_loss]
    rw [hw, hl]
  · intro st
    rw [hp]
    simp [streakStep]

/-- C3 witness: appending a break-even trade to a one-win list changes none
of the four outputs, and the streak step on profit 0 from the empty state
extends the loss streak to 1. -/
theorem C3_witness :
    ((compute_stats ([winTrade] ++ zeroTrade :: [])).map fun s =>
        (s.win_count, s.loss_count, s.gross_loss, s.avg_loss))
      = ((compute_stats ([winTrade] ++ [])).map fun s =>
        (s.win_count, s.loss_count, s.gross_loss, s.avg_loss)) ∧
    streakStep (0, 0, 0, 0) zeroTrade.profit = (0, 1, 0, 1) := by
  have h := C3_theorem [winTrade] [] zeroTrade rfl (by decide)
  exact ⟨h.1, by rw [h.2 (0, 0, 0, 0)]; rfl⟩

/-- C4: a trade whose `open_time` does not parse but whose `close_time` is
a non-empty string still counts toward `total_trades`, still lands in the
calendar and monthly buckets keyed by `close_time[:10]` / `close_time[:7]`,
and leaves the hours and days buckets untouched.  (All bucket functions are
total: the swallowed `ValueError` is the `none` branch of `strptime`, so no
exception reaches the caller.) -/
theorem C4_theorem (trades : List TradeRecord) (t : TradeRecord) (ot ct : String)
    (hot : t.open_time = some ot) (hbad : strptime (ot.take 19) = none)
    (hct : t.close_time = some ct) (hne : ct ≠ "") :
    hours (trades ++ [t]) = hours trades ∧
    days (trades ++ [t]) = days trades ∧
    lookupKey (cal (trades ++ [t])) (ct.take 10)
      = some (round2 ((lookupKey (cal trades) (ct.take 10)).getD 0 + t.profit)) ∧
    lookupKey (monthly (trades ++ [t])) (ct.take 7)
      = some (round2 ((lookupKey (monthly trades) (ct.take 7)).getD 0 + t.profit)) ∧
    ((compute_stats (trades ++ [t])).map fun s => s.total_trades)
      = some (trades.length + 1) := by
  refine ⟨?_, ?_, ?_, ?_, ?_⟩
  · have h1 : hours (trades ++ [t]) = hoursStep (hours trades) t := by
      simp [hours, List.foldl_append]
    rw [h1, hoursStep_of_bad_open _ _ _ hot hbad]
  · have h1 : days (trades ++ [t]) = daysStep (days trades) t := by
      simp [days, List.foldl_append]
    rw [h1, daysStep_of_bad_open _ _ _ hot hbad]
  · have h1 : cal (trades ++ [t]) = calStep (cal trades) t := by
      simp [cal, List.foldl_append]
    rw [h1, calStep_of_close _ _ _ hct hne, lookup_setKey_self]
  · have h1 : monthly (trades ++ [t]) = monthlyStep (monthly trades) t := by
      simp [monthly, List.foldl_append]
    rw [h1, monthlyStep_of_close _ _ _ hct hne, lookup_setKey_self]
  · have hne2 : trades ++ [t] ≠ [] := by simp
    rw [compute_stats_of_ne_nil hne2]
    simp [statsOf_total]

/-- C4 witness: the spec §8 scenario — `open_time = "garbage"`, valid
`close_time` — on an otherwise empty account. -/
theorem C4_witness :
    hours ([] ++ [garbageTrade]) = hours [] ∧
    days ([] ++ [garbageTrade]) = days [] ∧
    lookupKey (cal ([] ++ [garbageTrade])) ("2024-01-05 10:00:00".take 10)
      = some (round2 ((lookupKey (cal []) ("2024-01-05 10:00:00".take 10)).getD 0
          + garbageTrade.profit)) ∧
    lookupKey (monthly ([] ++ [garbageTrade])) ("2024-01-05 10:00:00".take 7)
      = some (round2 ((lookupKey (monthly []) ("2024-01-05 10:00:00".take 7)).getD 0
          + garbageTrade.profit)) ∧
    ((compute_stats ([] ++ [garbageTrade])).map fun s => s.total_trades)
      = some (List.length ([] : List TradeRecord) + 1) :=
  C4_theorem [] garbageTrade "garbage" "2024-01-05 10:00:00" rfl
    (by with_unfolding_all decide) rfl (by decide)

lemma map_fst_setKey_of_lookup {β : Type} (m : List (String × β)) (k : String) (w v : β)
    (h : lookupKey m k = some w) : (setKey m k v).map Prod.fst = m.map Prod.fst := by
  induction m with
  | nil => simp [lookupKey] at h
  | cons a m ih =>
    obtain ⟨k2, w2⟩ := a
    by_cases hk : k2 = k
    · simp [setKey, hk]
    · have h2 : lookupKey m k = some w := by simpa [lookupKey, hk] using h
      simp [setKey, hk, ih h2]

lemma hoursStep_keys (m : List (String × ℚ)) (t : TradeRecord) :
    (hoursStep m t).map Prod.fst = m.map Prod.fst := by
  cases hot : t.open_time with
  | none => simp [hoursStep, hot]
  | some s =>
    by_cases hs : s = ""
    · simp [hoursStep, hot, hs]
    · cases hp : strptime (s.take 19) with
      | none => simp [hoursStep, hot, hs, hp]
      | some dt =>
        cases hl : lookupKey m (toString dt.hour) with
        | none => simp [hoursStep, hot, hs, hp, hl]
        | some old =>
          simp [hoursStep, hot, hs, hp, hl, map_fst_setKey_of_lookup m _ old _ hl]

lemma daysStep_keys (m : List (String × ℚ)) (t : TradeRecord) :
    (daysStep m t).map Prod.fst = m.map Prod.fst := by
  cases hot : t.open_time with
  | none => simp [daysStep, hot]
  | some s =>
    by_cases hs : s = ""
    · simp [daysStep, hot, hs]
    · cases hp : strptime (s.take 19) with
      | none => simp [daysStep, hot, hs, hp]
      | some dt =>
        cases hl : lookupKey m (day_names.getD (pyWeekday dt) "") with
        | none =>
          have hl2 := hl
          simp only [List.getD_eq_getElem?_getD] at hl2
          simp [daysStep, hot, hs, hp, hl2]
        | some old =>
          have hl2 := hl
          simp only [List.getD_eq_getElem?_getD] at hl2
          simp [daysStep, hot, hs, hp, hl2, map_fst_setKey_of_lookup m _ old _ hl2]

lemma foldl_keys_invariant (step : List (String × ℚ) → TradeRecord → List (String × ℚ))
    (hstep : ∀ m t, (step m t).map Prod.fst = m.map Prod.fst) :
    ∀ (l : List TradeRecord) (m : List (String × ℚ)),
      (l.foldl step m).map Prod.fst = m.map Prod.fst := by
  intro l
  induction l with
  | nil => intro m; rfl
  | cons a l ih => intro m; rw [List.foldl_cons, ih, hstep]

/-- C5: the empty trade list yields the absent summary (no fields
populated), and for every trade list whatsoever the hours dict carries
exactly the 24 keys "0".."23" and the days dict exactly the 7 keys
Mon..Sun, each bucket sitting at 0 when no trade contributes (shown by the
pre-populated all-zero dicts of the empty trade set). -/
theorem C5_theorem :
    compute_stats [] = none ∧
    (∀ trades : List TradeRecord, (hours trades).map Prod.fst
        = ["0", "1", "2", "3", "4", "5", "6", "7", "8", "9", "10", "11", "12",
           "13", "14", "15", "16", "17", "18", "19", "20", "21", "22", "23"]) ∧
    (∀ trades : List TradeRecord, (days trades).map Prod.fst
        = ["Mon", "Tue", "Wed", "Thu", "Fri", "Sat", "Sun"]) ∧
    hours [] = [("0", 0), ("1", 0), ("2", 0), ("3", 0), ("4", 0), ("5", 0), ("6", 0),
      ("7", 0), ("8", 0), ("9", 0), ("10", 0), ("11", 0), ("12", 0), ("13", 0),
      ("14", 0), ("15", 0), ("16", 0), ("17", 0), ("18", 0), ("19", 0), ("20", 0),
      ("21", 0), ("22", 0), ("23", 0)] ∧
    days [] = [("Mon", 0), ("Tue", 0), ("Wed", 0), ("Thu", 0), ("Fri", 0),
      ("Sat", 0), ("Sun", 0)] := by
  refine ⟨rfl, ?_, ?_, by with_unfolding_all decide, by with_unfolding_all decide⟩
  · intro trades
    rw [hours, foldl_keys_invariant hoursStep hoursStep_keys trades hoursInit]
    with_unfolding_all decide
  · intro trades
    rw [days, foldl_keys_invariant daysStep daysStep_keys trades daysInit]
    with_unfolding_all decide

lemma rhe_zero {α : Type} [LinearOrderedField α] [FloorRing α] : rhe (0 : α) = 0 := by
  have h0 : ⌊(0 : α)⌋ = 0 := Int.floor_zero
  simp only [rhe, h0]
  norm_num

lemma round2_zero {α : Type} [LinearOrderedField α] [FloorRing α] : round2 (0 : α) = 0 := by
  simp only [round2, zero_mul, rhe_zero]
  norm_num

lemma statsOf_sharpe (l : List TradeRecord) :
    (statsOf l).sharpe_ratio
      = round2 (if 1 < (l.map fun t => t.profit).length then
          (if 0 < Real.sqrt ((sampleVar (l.map fun t => t.profit) : ℚ) : ℝ) then
            (((l.map fun t => t.profit).sum / (((l.map fun t => t.profit).length : ℕ) : ℚ) : ℚ) : ℝ)
              / Real.sqrt ((sampleVar (l.map fun t => t.profit) : ℚ) : ℝ)
          else 0)
        else 0) := rfl

/-- C6: `compute_stats` returns `profit_factor = 0` whenever the gross loss
(the absolute sum of negative profits) is 0, and `sharpe_ratio = 0`
whenever there are fewer than 2 trades or the sample variance — hence the
sample standard deviation — of the profits is 0: the zero-denominator
guards of the code, which is total and never raises. -/
theorem C6_theorem (trades : List TradeRecord) (h : trades ≠ []) :
    (|((trades.map fun t => t.profit).filter fun p => decide (p < 0)).sum| = 0 →
      ((compute_stats trades).map fun s => s.profit_factor) = some 0) ∧
    ((trades.length < 2 ∨ sampleVar (trades.map fun t => t.profit) = 0) →
      ((compute_stats trades).map fun s => s.sharpe_ratio) = some 0) := by
  constructor
  · intro hg
    rw [compute_stats_of_ne_nil h]
    simp only [Option.map_some', Option.some.injEq]
    rw [statsOf_profit_factor, hg]
    simp [round2_zero]
  · intro hs
    rw [compute_stats_of_ne_nil h]
    simp only [Option.map_some', Option.some.injEq]
    rw [statsOf_sharpe]
    rcases hs with h2 | hv
    · have hlen : ¬ 1 < (trades.map fun t => t.profit).length := by
        rw [List.length_map]; omega
      rw [if_neg hlen, round2_zero]
    · rw [hv]
      simp [Real.sqrt_zero, round2_zero]

/-- C6 witness: two identical 5-profit trades — no losing trade, zero
variance — produce profit_factor 0 and sharpe_ratio 0. -/
theorem C6_witness :
    ((compute_stats flatPair).map fun s => s.profit_factor) = some 0 ∧
    ((compute_stats flatPair).map fun s => s.sharpe_ratio) = some 0 := by
  have h := C6_theorem flatPair (by decide)
  exact ⟨h.1 (by with_unfolding_all decide), h.2 (Or.inr (by with_unfolding_all decide))⟩

lemma prefixSums_snoc (l : List ℚ) (p : ℚ) :
    prefixSums (l ++ [p]) = prefixSums l ++ [l.sum + p] := by
  unfold prefixSums
  have hlen : (l ++ [p]).length = l.length + 1 := by simp
  rw [hlen, List.range_succ, List.map_append]
  congr 1
  · exact List.map_congr_left (fun i hi => by
      rw [List.take_append_of_le_length (by have := List.mem_range.mp hi; omega)])
  · have h2 : (l ++ [p]).take (l.length + 1) = l ++ [p] :=
      List.take_of_length_le (by simp)
    simp [h2, List.sum_append]

lemma peakOf_snoc (l : List ℚ) (p : ℚ) :
    peakOf (l ++ [p]) = max (peakOf l) (l.sum + p) := by
  rw [peakOf, peakOf, prefixSums_snoc, List.foldl_append]
  rfl

lemma specMaxDrawdown_snoc (l : List ℚ) (p : ℚ) :
    specMaxDrawdown (l ++ [p])
      = max (specMaxDrawdown l) (peakOf (l ++ [p]) - (l.sum + p)) := by
  unfold specMaxDrawdown
  rw [prefixSums_snoc]
  have hlen : (prefixSums l ++ [l.sum + p]).length = (prefixSums l).length + 1 := by simp
  rw [hlen, List.range_succ, List.map_append]
  have hpeaks : (List.range (prefixSums l).length).map
      (fun i => ((prefixSums l ++ [l.sum + p]).take (i + 1)).foldl max 0)
      = (List.range (prefixSums l).length).map
      (fun i => ((prefixSums l).take (i + 1)).foldl max 0) :=
    List.map_congr_left (fun i hi => by
      rw [List.take_append_of_le_length (by have := List.mem_range.mp hi; omega)])
  rw [hpeaks]
  simp only [List.map_cons, List.map_nil]
  have hfull : (prefixSums l ++ [l.sum + p]).take ((prefixSums l).length + 1)
      = prefixSums l ++ [l.sum + p] := List.take_of_length_le (by simp)
  rw [hfull]
  rw [List.zip_append (by simp [prefixSums])]
  rw [List.map_append, List.foldl_append]
  rw [show peakOf (l ++ [p]) = (prefixSums l ++ [l.sum + p]).foldl max 0 from by
    rw [peakOf, prefixSums_snoc]]
  rfl

lemma if_lt_eq_max (a b : ℚ) : (if a < b then b else a) = max a b := by
  rcases lt_or_ge a b with h | h
  · rw [if_pos h, max_eq_right h.le]
  · rw [if_neg (not_lt.mpr h), max_eq_left h]

lemma dd_foldl_eq (l : List ℚ) :
    l.foldl ddStep (0, 0, 0) = (peakOf l, specMaxDrawdown l, l.sum) := by
  induction l using List.reverseRecOn with
  | nil => rfl
  | append_singleton l p ih =>
    rw [List.foldl_append, ih]
    show ddStep (peakOf l, specMaxDrawdown l, l.sum) p = _
    rw [specMaxDrawdown_snoc, peakOf_snoc, List.sum_append]
    simp only [ddStep, if_lt_eq_max, List.sum_cons, List.sum_nil, add_zero]

/-- C7: the `max_drawdown` output is exactly the spec's peak/running walk:
running cumulative totals in the supplied order, a running peak that starts
at 0 and is the maximum cumulative value seen so far, peak − running at
each step, and the maximum of those differences over the whole sequence,
rounded to 2 decimals. -/
theorem C7_theorem (trades : List TradeRecord) (h : trades ≠ []) :
    ((compute_stats trades).map fun s => s.max_drawdown)
      = some (round2 (specMaxDrawdown (trades.map fun t => t.profit))) := by
  rw [compute_stats_of_ne_nil h]
  simp only [Option.map_some', Option.some.injEq]
  rw [statsOf_max_drawdown, dd_foldl_eq]

/-- C7 witness: on the five-trade scenario the drawdown of both the loop
and the spec walk is 50 (cumulative 100, 50, 100, 80, 70 against peak
100). -/
theorem C7_witness :
    ((compute_stats c2trades).map fun s => s.max_drawdown) = some 50 := by
  rw [C7_theorem c2trades (by decide)]
  with_unfolding_all decide

/-- C8: the calendar keys each trade by the first 10 characters of its
`close_time` and rounds the bucket's running sum to 2 decimals after every
contribution (the `setKey … round2` equation), skips trades with a falsy
`close_time` entirely, and on the spec scenario — close times
"2024-01-05T10:00:00" with profit 30 and "2024-01-05T15:00:00" with
profit −10 — yields calendar["2024-01-05"] = 20. -/
theorem C8_theorem :
    (∀ (l1 l2 : List TradeRecord) (t : TradeRecord), truthy t.close_time = false →
        cal (l1 ++ t :: l2) = cal (l1 ++ l2)) ∧
    (∀ (m : List (String × ℚ)) (t : TradeRecord) (ct : String),
        t.close_time = some ct → ct ≠ "" →
        calStep m t = setKey m (ct.take 10)
          (round2 ((lookupKey m (ct.take 10)).getD 0 + t.profit))) ∧
    lookupKey (cal [c8a, c8b]) "2024-01-05" = some 20 := by
  refine ⟨?_, ?_, by with_unfolding_all decide⟩
  · intro l1 l2 t ht
    rw [cal, cal, List.foldl_append, List.foldl_append, List.foldl_cons,
      calStep_skip _ _ ht]
  · exact fun m t ct hct hne => calStep_of_close m t ct hct hne

/-- C8 witness: a trade with `close_time = none` is skipped entirely, and
the key/rounding equation instantiated on the scenario's first trade. -/
theorem C8_witness :
    cal ([] ++ noCloseTrade :: []) = cal ([] ++ []) ∧
    calStep [] c8a = setKey [] ("2024-01-05T10:00:00".take 10)
      (round2 ((lookupKey ([] : List (String × ℚ)) ("2024-01-05T10:00:00".take 10)).getD 0
        + c8a.profit)) :=
  ⟨C8_theorem.1 [] [] noCloseTrade rfl,
   C8_theorem.2.1 [] c8a "2024-01-05T10:00:00" rfl (by decide)⟩

/-- C9: the equity curve has exactly one (time, balance, equity) triple per
input snapshot, in input order, with the three values passed through
unchanged — index i of the output is the projection of index i of the
input, and nothing is filtered or resampled. -/
theorem C9_theorem (snaps : List EquitySnapshot) :
    (equity_curve snaps).length = snaps.length ∧
    ∀ i : ℕ, (equity_curve snaps)[i]?
      = (snaps[i]?).map fun s => EquityPoint.mk s.snapshot_time s.balance s.equity := by
  constructor
  · simp [equity_curve]
  · intro i
    simp [equity_curve, List.getElem?_map]

/-- C10: the report is a pure function of the two input sequences — equal
trade and snapshot inputs give equal (bit-identical) reports, with no
hidden state between invocations. -/
theorem C10_theorem (t1 t2 : List TradeRecord) (s1 s2 : List EquitySnapshot)
    (ht : t1 = t2) (hs : s1 = s2) : api_stats t1 s1 = api_stats t2 s2 := by
  rw [ht, hs]

/-- C10 witness: two invocations on the same concrete inputs coincide. -/
theorem C10_witness : api_stats [c8a] [snapA] = api_stats [c8a] [snapA] :=
  C10_theorem [c8a] [c8a] [snapA] [snapA] rfl rfl

end GoldBook
